import Mathlib

/-!
Verification development for the BoxApp rendering demo
(src/GeomApp/Box/BoxApp.cpp).

The C++ code is shallowly embedded: `float` arithmetic is modelled by exact
rational arithmetic over `ℚ` (the constants involved — 200, 0.01, 0.02,
1/60 — and the linear updates make every claimed quantity exact in `ℚ`,
matching the spec's "within floating-point tolerance" phrasing), `int` by
`ℤ`, and the Direct3D command list by an explicit list of submitted
commands.  DirectXMath matrices are 4×4 rational matrices in row-vector
convention, exactly as DirectXMath lays them out; the rotation matrix is
parametrised by the cosine and sine of the angle.
-/

/-- The polled input snapshot held by `InputManager`: 256 key slots, mouse
position, and the two mouse-button flags (BoxApp.cpp lines 324-334). -/
structure InputSnapshot where
  keyState : Fin 256 → Bool
  mouseX : ℤ
  mouseY : ℤ
  leftButton : Bool
  rightButton : Bool

/-- `InputManager::IsKeyDown` (BoxApp.cpp lines 310-313):
`if (vkCode < 0 || vkCode >= 256) return false; return mKeyState[vkCode];`. -/
def InputManager.IsKeyDown (input : InputSnapshot) (vkCode : ℤ) : Bool :=
  if h : vkCode < 0 ∨ 256 ≤ vkCode then false
  else input.keyState ⟨vkCode.toNat, by omega⟩

/-- `IsMouseLeftDown` (line 315). -/
def InputManager.IsMouseLeftDown (input : InputSnapshot) : Bool :=
  input.leftButton

/-- `IsMouseRightDown` (line 316). -/
def InputManager.IsMouseRightDown (input : InputSnapshot) : Bool :=
  input.rightButton

/-- The pose owned by `GameplayState` (lines 397-400): position, scale,
angle. -/
structure GameplayPose where
  posX : ℚ
  posY : ℚ
  scale : ℚ
  angle : ℚ
deriving DecidableEq

/-- `GameplayState::Enter` (lines 353-359): position (0,0), scale 1, angle 0. -/
def GameplayState.Enter : GameplayPose :=
  { posX := 0, posY := 0, scale := 1, angle := 0 }

/-- The local `moveSpeed` constant of `GameplayState::Update` (line 364). -/
def moveSpeed : ℚ := 200

/-- `GameplayState::Update` (lines 361-377).  Key codes: W = 87, S = 83,
A = 65, D = 68, VK_UP = 38, VK_DOWN = 40, VK_LEFT = 37, VK_RIGHT = 39.
`0.01f` and `0.02f` become `1/100` and `2/100`. -/
def GameplayState.Update (input : InputSnapshot) (deltaTime : ℚ)
    (s : GameplayPose) : GameplayPose :=
  let s1 := if InputManager.IsKeyDown input 87 || InputManager.IsKeyDown input 38 then
    { s with posY := s.posY - moveSpeed * deltaTime } else s
  let s2 := if InputManager.IsKeyDown input 83 || InputManager.IsKeyDown input 40 then
    { s1 with posY := s1.posY + moveSpeed * deltaTime } else s1
  let s3 := if InputManager.IsKeyDown input 65 || InputManager.IsKeyDown input 37 then
    { s2 with posX := s2.posX - moveSpeed * deltaTime } else s2
  let s4 := if InputManager.IsKeyDown input 68 || InputManager.IsKeyDown input 39 then
    { s3 with posX := s3.posX + moveSpeed * deltaTime } else s3
  let s5 := if input.leftButton then { s4 with scale := s4.scale + 1/100 } else s4
  let s6 := if input.rightButton then { s5 with angle := s5.angle + 2/100 } else s5
  s6

/-- `n` ticks of `GameplayState::Update` under a constant input snapshot and
constant `deltaTime`. -/
def GameplayState.UpdateIter (input : InputSnapshot) (deltaTime : ℚ) :
    Nat → GameplayPose → GameplayPose
  | 0, s => s
  | n + 1, s => GameplayState.UpdateIter input deltaTime n
      (GameplayState.Update input deltaTime s)

/-- A sequence of `GameplayState::Update` calls, each with its own input
snapshot and `deltaTime`. -/
def GameplayState.UpdateSeq : List (InputSnapshot × ℚ) → GameplayPose → GameplayPose
  | [], s => s
  | (i, dt) :: rest, s => GameplayState.UpdateSeq rest (GameplayState.Update i dt s)

/-- Input snapshot with exactly the W key (code 87) held and no mouse button. -/
def onlyW : InputSnapshot :=
  { keyState := fun k => decide (k.val = 87)
    mouseX := 0, mouseY := 0, leftButton := false, rightButton := false }

/-- Input snapshot with nothing held. -/
def emptyInput : InputSnapshot :=
  { keyState := fun _ => false
    mouseX := 0, mouseY := 0, leftButton := false, rightButton := false }

/-- Input snapshot with only the left mouse button held. -/
def leftHeld : InputSnapshot :=
  { keyState := fun _ => false
    mouseX := 0, mouseY := 0, leftButton := true, rightButton := false }

lemma Update_posY (input : InputSnapshot) (dt : ℚ) (s : GameplayPose) :
    (GameplayState.Update input dt s).posY =
      s.posY
        + (if InputManager.IsKeyDown input 83 || InputManager.IsKeyDown input 40 then
            moveSpeed * dt else 0)
        - (if InputManager.IsKeyDown input 87 || InputManager.IsKeyDown input 38 then
            moveSpeed * dt else 0) := by
  unfold GameplayState.Update
  cases h1 : (InputManager.IsKeyDown input 87 || InputManager.IsKeyDown input 38) <;>
  cases h2 : (InputManager.IsKeyDown input 83 || InputManager.IsKeyDown input 40) <;>
  cases h3 : (InputManager.IsKeyDown input 65 || InputManager.IsKeyDown input 37) <;>
  cases h4 : (InputManager.IsKeyDown input 68 || InputManager.IsKeyDown input 39) <;>
  cases h5 : input.leftButton <;>
  cases h6 : input.rightButton <;>
  simp [h1, h2, h3, h4, h5, h6]

lemma Update_posX (input : InputSnapshot) (dt : ℚ) (s : GameplayPose) :
    (GameplayState.Update input dt s).posX =
      s.posX
        + (if InputManager.IsKeyDown input 68 || InputManager.IsKeyDown input 39 then
            moveSpeed * dt else 0)
        - (if InputManager.IsKeyDown input 65 || InputManager.IsKeyDown input 37 then
            moveSpeed * dt else 0) := by
  unfold GameplayState.Update
  cases h1 : (InputManager.IsKeyDown input 87 || InputManager.IsKeyDown input 38) <;>
  cases h2 : (InputManager.IsKeyDown input 83 || InputManager.IsKeyDown input 40) <;>
  cases h3 : (InputManager.IsKeyDown input 65 || InputManager.IsKeyDown input 37) <;>
  cases h4 : (InputManager.IsKeyDown input 68 || InputManager.IsKeyDown input 39) <;>
  cases h5 : input.leftButton <;>
  cases h6 : input.rightButton <;>
  simp [h1, h2, h3, h4, h5, h6]

lemma Update_scale (input : InputSnapshot) (dt : ℚ) (s : GameplayPose) :
    (GameplayState.Update input dt s).scale =
      s.scale + (if input.leftButton then 1/100 else 0) := by
  unfold GameplayState.Update
  cases h1 : (InputManager.IsKeyDown input 87 || InputManager.IsKeyDown input 38) <;>
  cases h2 : (InputManager.IsKeyDown input 83 || InputManager.IsKeyDown input 40) <;>
  cases h3 : (InputManager.IsKeyDown input 65 || InputManager.IsKeyDown input 37) <;>
  cases h4 : (InputManager.IsKeyDown input 68 || InputManager.IsKeyDown input 39) <;>
  cases h5 : input.leftButton <;>
  cases h6 : input.rightButton <;>
  simp [h1, h2, h3, h4, h5, h6]

lemma Update_angle (input : InputSnapshot) (dt : ℚ) (s : GameplayPose) :
    (GameplayPose.angle (GameplayState.Update input dt s)) =
      s.angle + (if input.rightButton then 2/100 else 0) := by
  unfold GameplayState.Update
  cases h1 : (InputManager.IsKeyDown input 87 || InputManager.IsKeyDown input 38) <;>
  cases h2 : (InputManager.IsKeyDown input 83 || InputManager.IsKeyDown input 40) <;>
  cases h3 : (InputManager.IsKeyDown input 65 || InputManager.IsKeyDown input 37) <;>
  cases h4 : (InputManager.IsKeyDown input 68 || InputManager.IsKeyDown input 39) <;>
  cases h5 : input.leftButton <;>
  cases h6 : input.rightButton <;>
  simp [h1, h2, h3, h4, h5, h6]

lemma UpdateIter_posY (input : InputSnapshot) (dt : ℚ) :
    ∀ (n : Nat) (s : GameplayPose),
      (GameplayState.UpdateIter input dt n s).posY =
        s.posY + n *
          ((if InputManager.IsKeyDown input 83 || InputManager.IsKeyDown input 40 then
              moveSpeed * dt else 0)
           - (if InputManager.IsKeyDown input 87 || InputManager.IsKeyDown input 38 then
              moveSpeed * dt else 0))
  | 0, s => by simp [GameplayState.UpdateIter]
  | n + 1, s => by
    rw [GameplayState.UpdateIter, UpdateIter_posY input dt n, Update_posY]
    push_cast
    ring

lemma UpdateIter_posX (input : InputSnapshot) (dt : ℚ) :
    ∀ (n : Nat) (s : GameplayPose),
      (GameplayState.UpdateIter input dt n s).posX =
        s.posX + n *
          ((if InputManager.IsKeyDown input 68 || InputManager.IsKeyDown input 39 then
              moveSpeed * dt else 0)
           - (if InputManager.IsKeyDown input 65 || InputManager.IsKeyDown input 37 then
              moveSpeed * dt else 0))
  | 0, s => by simp [GameplayState.UpdateIter]
  | n + 1, s => by
    rw [GameplayState.UpdateIter, UpdateIter_posX input dt n, Update_posX]
    push_cast
    ring

lemma UpdateIter_scale (input : InputSnapshot) (dt : ℚ) :
    ∀ (n : Nat) (s : GameplayPose),
      (GameplayState.UpdateIter input dt n s).scale =
        s.scale + n * (if input.leftButton then 1/100 else 0)
  | 0, s => by simp [GameplayState.UpdateIter]
  | n + 1, s => by
    rw [GameplayState.UpdateIter, UpdateIter_scale input dt n, Update_scale]
    push_cast
    ring

lemma UpdateIter_angle (input : InputSnapshot) (dt : ℚ) :
    ∀ (n : Nat) (s : GameplayPose),
      (GameplayState.UpdateIter input dt n s).angle =
        s.angle + n * (if input.rightButton then 2/100 else 0)
  | 0, s => by simp [GameplayState.UpdateIter]
  | n + 1, s => by
    rw [GameplayState.UpdateIter, UpdateIter_angle input dt n, Update_angle]
    push_cast
    ring

/-- A 4×4 rational matrix, the shallow embedding of `XMFLOAT4X4`/`XMMATRIX`
in DirectXMath's row-vector convention. -/
abbrev Mat4 := Matrix (Fin 4) (Fin 4) ℚ

/-- `XMMatrixIdentity`. -/
def XMMatrixIdentity : Mat4 := 1

/-- `XMMatrixTranslation(x, y, z)` (row-vector convention: the translation
sits in the last row). -/
def XMMatrixTranslation (x y z : ℚ) : Mat4 :=
  !![1, 0, 0, 0;
     0, 1, 0, 0;
     0, 0, 1, 0;
     x, y, z, 1]

/-- `XMMatrixRotationZ(angle)`, parametrised by `cosA = cos angle` and
`sinA = sin angle` since the embedding is over `ℚ`. -/
def XMMatrixRotationZ (cosA sinA : ℚ) : Mat4 :=
  !![ cosA, sinA, 0, 0;
     -sinA, cosA, 0, 0;
         0,    0, 1, 0;
         0,    0, 0, 1]

/-- `XMMatrixScaling(sx, sy, sz)`. -/
def XMMatrixScaling (sx sy sz : ℚ) : Mat4 :=
  !![sx,  0,  0, 0;
      0, sy,  0, 0;
      0,  0, sz, 0;
      0,  0,  0, 1]

/-- `XMMatrixOrthographicOffCenterLH(l, r, b, t, zn, zf)` as DirectXMath
computes it. -/
def XMMatrixOrthographicOffCenterLH (l r b t zn zf : ℚ) : Mat4 :=
  !![2 / (r - l),             0,              0,              0;
     0,                       2 / (t - b),    0,              0;
     0,                       0,              1 / (zf - zn),  0;
     (l + r) / (l - r),       (t + b) / (b - t), zn / (zn - zf), 1]

/-- One command recorded on the Direct3D 12 command list during
`DX12RenderAdapter::DrawTriangle`. -/
inductive RenderCommand where
  | setPipelineState
  | setDescriptorHeaps (count : Nat)
  | setGraphicsRootSignature
  | setGraphicsRootDescriptorTable (slot : Nat)
  | iaSetVertexBuffers (startSlot count : Nat)
  | iaSetIndexBuffer
  | iaSetPrimitiveTopologyTriangleList
  | drawIndexedInstanced (indexCount instanceCount startIndexLocation : Nat)
      (baseVertexLocation startInstanceLocation : Nat)
deriving DecidableEq

/-- An RGBA color, the embedding of `XMFLOAT4` color values. -/
structure Color4 where
  r : ℚ
  g : ℚ
  b : ℚ
  a : ℚ
deriving DecidableEq

/-- `Colors::Red`. -/
def colorRed : Color4 := { r := 1, g := 0, b := 0, a := 1 }

/-- The observable per-draw state of the adapter: the single constant-buffer
slot (`mObjectCB`, holding `ObjectConstants.WorldViewProj`) and the command
stream issued so far. -/
structure AdapterDrawState where
  objectCB : Mat4
  commands : List RenderCommand

/-- `DX12RenderAdapter::DrawTriangle` (lines 123-145): store the transpose of
the supplied transform into the one constant-buffer slot, bind pipeline /
heap / root signature / mesh, and issue one indexed draw of the 3-index
triangle submesh.  The `color` parameter is accepted and, as in the source,
never used. -/
def DX12RenderAdapter.DrawTriangle (a : AdapterDrawState)
    (worldViewProj : Mat4) (color : Color4) : AdapterDrawState :=
  { objectCB := worldViewProj.transpose
    commands := a.commands ++
      [ RenderCommand.setPipelineState,
        RenderCommand.setDescriptorHeaps 1,
        RenderCommand.setGraphicsRootSignature,
        RenderCommand.setGraphicsRootDescriptorTable 0,
        RenderCommand.iaSetVertexBuffers 0 1,
        RenderCommand.iaSetIndexBuffer,
        RenderCommand.iaSetPrimitiveTopologyTriangleList,
        RenderCommand.drawIndexedInstanced 3 1 0 0 0 ] }

/-- The `Vertex` struct (lines 61-64): position and color. -/
structure Vertex where
  Pos : ℚ × ℚ × ℚ
  Color : Color4
deriving DecidableEq

/-- The `float size = 200.0f` constant of `BuildTriangleGeometry` (line 194). -/
def triangleSize : ℚ := 200

/-- The vertex array built by `DX12RenderAdapter::BuildTriangleGeometry`
(lines 193-204) from the client dimensions stored at `Initialize` time. -/
def BuildTriangleGeometry (clientWidth clientHeight : ℤ) : List Vertex :=
  let size : ℚ := triangleSize
  let centerX : ℚ := (clientWidth : ℚ) * (1 / 2)
  let centerY : ℚ := (clientHeight : ℚ) * (1 / 2)
  [ { Pos := (centerX, centerY - size / 2, 0), Color := colorRed },
    { Pos := (centerX - size / 2, centerY + size / 2, 0), Color := colorRed },
    { Pos := (centerX + size / 2, centerY + size / 2, 0), Color := colorRed } ]

/-- The index array built by `BuildTriangleGeometry` (line 204). -/
def triangleIndices : List Nat := [0, 1, 2]

/-- `GameplayState::Draw` (lines 379-391): build
`world = T(position) * Rz(angle) * S(scale)`, `view = I`,
`proj = orthoOffCenterLH(0, 800, 600, 0, 0, 1)` (the 800 and 600 are literal
constants in the source), and submit `world * view * proj` through
`DrawTriangle` with color (1,0,0,1). -/
def GameplayState.Draw (pose : GameplayPose) (cosA sinA : ℚ)
    (adapter : AdapterDrawState) : AdapterDrawState :=
  let world := XMMatrixTranslation pose.posX pose.posY 0 *
    XMMatrixRotationZ cosA sinA *
    XMMatrixScaling pose.scale pose.scale 1
  let view := XMMatrixIdentity
  let proj := XMMatrixOrthographicOffCenterLH 0 800 600 0 0 1
  let wvp := world * view * proj
  DX12RenderAdapter.DrawTriangle adapter wvp { r := 1, g := 0, b := 0, a := 1 }

/-- The application state relevant to drawing: client dimensions, the cached
projection member `mProj` (recomputed on resize, lines 513-524), and the
gameplay pose owned by the current state. -/
structure BoxAppState where
  clientWidth : ℤ
  clientHeight : ℤ
  mProj : Mat4
  pose : GameplayPose

/-- `BoxApp::OnResize` (lines 513-524): recompute `mProj` from the new client
dimensions and forward them to the adapter (which only stores them). -/
def BoxApp.OnResize (app : BoxAppState) (w h : ℤ) : BoxAppState :=
  { app with
    clientWidth := w
    clientHeight := h
    mProj := XMMatrixOrthographicOffCenterLH 0 (w : ℚ) (h : ℚ) 0 0 1 }

/-- The drawing step of `BoxApp::Draw` (lines 555-557): delegate to the
current state's `Draw`, which ignores `mProj` and the stored client
dimensions. -/
def BoxApp.FrameDraw (app : BoxAppState) (cosA sinA : ℚ)
    (adapter : AdapterDrawState) : AdapterDrawState :=
  GameplayState.Draw app.pose cosA sinA adapter

/-- The transform claim C2 says each frame submits, built from the spec's
words for comparison with the code: the world matrix times an orthographic
projection matching the window's current client dimensions. -/
def specClaimedWVP (app : BoxAppState) (cosA sinA : ℚ) : Mat4 :=
  (XMMatrixTranslation app.pose.posX app.pose.posY 0 *
      XMMatrixRotationZ cosA sinA *
      XMMatrixScaling app.pose.scale app.pose.scale 1) *
    XMMatrixOrthographicOffCenterLH 0 (app.clientWidth : ℚ) (app.clientHeight : ℚ) 0 0 1

/-- The subset of the adapter-owned GPU resources created by `Initialize`
(lines 77-112), recorded as held/released flags: root signature, CBV heap,
object constant buffer, triangle mesh, pipeline state object. -/
structure DX12AdapterResources where
  mRootSignature : Bool
  mCbvHeap : Bool
  mObjectCB : Bool
  mTriangleGeo : Bool
  mPSO : Bool
deriving DecidableEq

/-- All resources held, as after a successful `Initialize`. -/
def adapterAfterInit : DX12AdapterResources :=
  { mRootSignature := true, mCbvHeap := true, mObjectCB := true
    mTriangleGeo := true, mPSO := true }

/-- Whether every adapter-owned GPU resource has been released. -/
def DX12AdapterResources.allReleased (a : DX12AdapterResources) : Bool :=
  !a.mRootSignature && !a.mCbvHeap && !a.mObjectCB && !a.mTriangleGeo && !a.mPSO

/-- `DX12RenderAdapter::Cleanup` (lines 151-154): its entire body is one
`Logger::Log` call; it touches no resource.  The result is the new resource
state paired with the log lines emitted. -/
def DX12RenderAdapter.Cleanup (a : DX12AdapterResources) :
    DX12AdapterResources × List String :=
  (a, ["Cleaning up DX12RenderAdapter"])

/-- The three ways startup can go, as seen by `WinMain` (lines 453-469). -/
inductive StartupOutcome where
  | initFailed
  | dxException (message : String)
  | cleanRun
deriving DecidableEq

/-- Whether the outcome is a thrown `DxException`. -/
def StartupOutcome.isDxException : StartupOutcome → Bool
  | StartupOutcome.dxException _ => true
  | _ => false

/-- Modelled from the spec: `D3DApp::Run` lives in `Common/d3dApp.h`, which
is not under `src/`; per spec sections 6 and 7 a clean run exits with the
same status as a fatal startup error, namely 0. -/
def D3DApp.Run : ℤ := 0

/-- What `WinMain` observably does: the process exit status and whether the
`MessageBox` dialog was shown. -/
structure WinMainResult where
  exitCode : ℤ
  dialogShown : Bool
deriving DecidableEq

/-- `WinMain` (lines 453-469): `Initialize` failure returns 0 with no dialog;
a caught `DxException` shows a `MessageBox` and returns 0; a clean run
returns `theApp.Run()`. -/
def WinMain (outcome : StartupOutcome) : WinMainResult :=
  match outcome with
  | StartupOutcome.initFailed => { exitCode := 0, dialogShown := false }
  | StartupOutcome.dxException _ => { exitCode := 0, dialogShown := true }
  | StartupOutcome.cleanRun => { exitCode := D3DApp.Run, dialogShown := false }

lemma pose_eq_of_fields {p q : GameplayPose} (hx : p.posX = q.posX)
    (hy : p.posY = q.posY) (hs : p.scale = q.scale) (ha : p.angle = q.angle) :
    p = q := by
  cases p; cases q; simp_all

lemma Update_scale_le (input : InputSnapshot) (dt : ℚ) (s : GameplayPose) :
    s.scale ≤ (GameplayState.Update input dt s).scale := by
  rw [Update_scale]
  have h : (0 : ℚ) ≤ if input.leftButton then 1/100 else 0 := by
    split_ifs <;> norm_num
  linarith

lemma UpdateSeq_scale_le : ∀ (presses : List (InputSnapshot × ℚ)) (s : GameplayPose),
    s.scale ≤ (GameplayState.UpdateSeq presses s).scale
  | [], _ => le_refl _
  | (i, dt) :: rest, s =>
    le_trans (Update_scale_le i dt s) (UpdateSeq_scale_le rest (GameplayState.Update i dt s))

/-- Claim C1: starting from the `GameplayState::Enter` pose, 60 ticks of
`Update` at `deltaTime = 1/60` with only the W key held yield position
(0, -200) with scale and angle unchanged; in general, over `n` ticks at
constant `deltaTime` each position coordinate moves by
`n * deltaTime * moveSpeed` times the (sign of the) held direction for that
coordinate — additively, and independently of every key that does not feed
that coordinate's two branches.  (Exact in the rational model; the floating
point run agrees within tolerance.) -/
theorem C1_gameplay_linear_motion :
    (GameplayState.UpdateIter onlyW (1/60) 60 GameplayState.Enter =
      { posX := 0, posY := -200, scale := 1, angle := 0 }) ∧
    (∀ (input : InputSnapshot) (dt : ℚ) (n : Nat) (s : GameplayPose),
      (GameplayState.UpdateIter input dt n s).posY =
        s.posY + n *
          ((if InputManager.IsKeyDown input 83 || InputManager.IsKeyDown input 40 then
              moveSpeed * dt else 0)
           - (if InputManager.IsKeyDown input 87 || InputManager.IsKeyDown input 38 then
              moveSpeed * dt else 0)) ∧
      (GameplayState.UpdateIter input dt n s).posX =
        s.posX + n *
          ((if InputManager.IsKeyDown input 68 || InputManager.IsKeyDown input 39 then
              moveSpeed * dt else 0)
           - (if InputManager.IsKeyDown input 65 || InputManager.IsKeyDown input 37 then
              moveSpeed * dt else 0))) := by
  refine ⟨?_, fun input dt n s => ⟨UpdateIter_posY input dt n s, UpdateIter_posX input dt n s⟩⟩
  have h87 : InputManager.IsKeyDown onlyW 87 = true := by decide
  have h38 : InputManager.IsKeyDown onlyW 38 = false := by decide
  have h83 : InputManager.IsKeyDown onlyW 83 = false := by decide
  have h40 : InputManager.IsKeyDown onlyW 40 = false := by decide
  have h65 : InputManager.IsKeyDown onlyW 65 = false := by decide
  have h37 : InputManager.IsKeyDown onlyW 37 = false := by decide
  have h68 : InputManager.IsKeyDown onlyW 68 = false := by decide
  have h39 : InputManager.IsKeyDown onlyW 39 = false := by decide
  apply pose_eq_of_fields
  · rw [UpdateIter_posX onlyW (1/60) 60 GameplayState.Enter]
    simp [h65, h37, h68, h39, GameplayState.Enter]
  · rw [UpdateIter_posY onlyW (1/60) 60 GameplayState.Enter]
    simp [h87, h38, h83, h40, GameplayState.Enter, moveSpeed]
    norm_num
  · rw [UpdateIter_scale onlyW (1/60) 60 GameplayState.Enter]
    simp [onlyW, GameplayState.Enter]
  · rw [UpdateIter_angle onlyW (1/60) 60 GameplayState.Enter]
    simp [onlyW, GameplayState.Enter]

/-- The app state after `OnResize(1024, 768)`, starting from the 800×600
initial configuration with the `Enter` pose. -/
def app1024 : BoxAppState :=
  BoxApp.OnResize
    { clientWidth := 800, clientHeight := 600,
      mProj := XMMatrixOrthographicOffCenterLH 0 800 600 0 0 1,
      pose := GameplayState.Enter }
    1024 768

/-- An adapter draw state with an identity constant buffer and empty command
stream. -/
def adapter0 : AdapterDrawState := { objectCB := 1, commands := [] }

lemma translation_zero_eq_one : XMMatrixTranslation 0 0 0 = 1 := by
  ext i j
  fin_cases i <;> fin_cases j <;>
    simp [XMMatrixTranslation, Matrix.one_apply, Matrix.vecHead, Matrix.vecTail]

lemma rotationZ_zero_eq_one : XMMatrixRotationZ 1 0 = 1 := by
  ext i j
  fin_cases i <;> fin_cases j <;>
    simp [XMMatrixRotationZ, Matrix.one_apply, Matrix.vecHead, Matrix.vecTail]

lemma scaling_one_eq_one : XMMatrixScaling 1 1 1 = 1 := by
  ext i j
  fin_cases i <;> fin_cases j <;>
    simp [XMMatrixScaling, Matrix.one_apply, Matrix.vecHead, Matrix.vecTail]

/-- Claim C2 counterexample: after the window's client area is resized to
1024×768, the transform submitted by `GameplayState::Draw` is NOT the world
matrix times an orthographic projection matching the current client
dimensions — the source hardcodes `XMMatrixOrthographicOffCenterLH(0, 800,
600, 0, 0, 1)` at line 385. -/
theorem C2_current_dims_counterexample :
    (BoxApp.FrameDraw app1024 1 0 adapter0).objectCB ≠
      (specClaimedWVP app1024 1 0).transpose := by
  have hL : (BoxApp.FrameDraw app1024 1 0 adapter0).objectCB =
      (XMMatrixOrthographicOffCenterLH 0 800 600 0 0 1).transpose := by
    simp [BoxApp.FrameDraw, GameplayState.Draw, DX12RenderAdapter.DrawTriangle,
      app1024, BoxApp.OnResize, GameplayState.Enter, XMMatrixIdentity,
      translation_zero_eq_one, rotationZ_zero_eq_one, scaling_one_eq_one]
  have hR : specClaimedWVP app1024 1 0 =
      XMMatrixOrthographicOffCenterLH 0 1024 768 0 0 1 := by
    simp [specClaimedWVP, app1024, BoxApp.OnResize, GameplayState.Enter,
      translation_zero_eq_one, rotationZ_zero_eq_one, scaling_one_eq_one]
  intro h
  rw [hL, hR] at h
  have h2 := congrFun (congrFun h 0) 0
  simp [XMMatrixOrthographicOffCenterLH, Matrix.transpose_apply] at h2
  norm_num at h2

/-- Claim C2 (amended): every frame, `GameplayState::Draw` submits (into the
constant-buffer slot, transposed by `DrawTriangle`) the world matrix
translation × rotation × scale — composed in that order from the current
position, angle and scale — times the identity view and a FIXED
orthographic projection for left 0, right 800, bottom 600, top 0, near 0,
far 1, recomputed from scratch each frame with no caching; the projection
is independent of the window's current client dimensions (resizing the
window changes nothing about the submitted transform). -/
theorem C2_fixed_800x600_projection (app : BoxAppState) (cosA sinA : ℚ)
    (adapter : AdapterDrawState) :
    (BoxApp.FrameDraw app cosA sinA adapter).objectCB =
      ((XMMatrixTranslation app.pose.posX app.pose.posY 0 *
          XMMatrixRotationZ cosA sinA *
          XMMatrixScaling app.pose.scale app.pose.scale 1) *
        XMMatrixIdentity *
        XMMatrixOrthographicOffCenterLH 0 800 600 0 0 1).transpose ∧
    (∀ (w h : ℤ),
      BoxApp.FrameDraw (BoxApp.OnResize app w h) cosA sinA adapter =
        BoxApp.FrameDraw app cosA sinA adapter) :=
  ⟨rfl, fun _ _ => rfl⟩

/-- Claim C3: for every call to `DrawTriangle` with any 4×4 matrix, the
matrix stored into the single constant-buffer slot is the transpose of the
matrix passed in (entrywise: slot entry (i, j) is input entry (j, i)). -/
theorem C3_constant_buffer_transpose (a : AdapterDrawState) (m : Mat4)
    (color : Color4) :
    (DX12RenderAdapter.DrawTriangle a m color).objectCB = m.transpose ∧
    (∀ i j : Fin 4, (DX12RenderAdapter.DrawTriangle a m color).objectCB i j = m j i) :=
  ⟨rfl, fun _ _ => rfl⟩

/-- Claim C4: for every integer key code outside [0, 255],
`InputManager::IsKeyDown` returns false, in every state of the
`InputManager` (no out-of-bounds read: the guarded branch never touches the
256-entry key-state array). -/
theorem C4_IsKeyDown_out_of_range (input : InputSnapshot) (vkCode : ℤ)
    (h : vkCode < 0 ∨ 256 ≤ vkCode) :
    InputManager.IsKeyDown input vkCode = false := by
  unfold InputManager.IsKeyDown
  rw [dif_pos h]

/-- Input snapshot in which every key slot reads held: the adversarial state
for the out-of-range check. -/
def allKeysHeld : InputSnapshot :=
  { keyState := fun _ => true
    mouseX := 0, mouseY := 0, leftButton := true, rightButton := true }

/-- Witness for C4 at the concrete out-of-range codes 300 and -5, in the
state where every in-range key is held. -/
theorem C4_out_of_range_witness :
    (((300 : ℤ) < 0 ∨ (256 : ℤ) ≤ 300) ∧
      InputManager.IsKeyDown allKeysHeld 300 = false) ∧
    (((-5 : ℤ) < 0 ∨ (256 : ℤ) ≤ -5) ∧
      InputManager.IsKeyDown allKeysHeld (-5) = false) :=
  ⟨⟨by decide, C4_IsKeyDown_out_of_range allKeysHeld 300 (by decide)⟩,
   ⟨by decide, C4_IsKeyDown_out_of_range allKeysHeld (-5) (by decide)⟩⟩

/-- Claim C5: on every update with the left mouse button held the scale
strictly increases, on every update without it the scale is unchanged, and
across any sequence of updates the scale never decreases. -/
theorem C5_scale_monotone :
    (∀ (input : InputSnapshot) (dt : ℚ) (s : GameplayPose),
      (input.leftButton = true →
        s.scale < (GameplayState.Update input dt s).scale) ∧
      (input.leftButton = false →
        (GameplayState.Update input dt s).scale = s.scale)) ∧
    (∀ (presses : List (InputSnapshot × ℚ)) (s : GameplayPose),
      s.scale ≤ (GameplayState.UpdateSeq presses s).scale) := by
  refine ⟨fun input dt s => ⟨fun hl => ?_, fun hl => ?_⟩, UpdateSeq_scale_le⟩
  · rw [Update_scale, hl]
    norm_num
  · rw [Update_scale, hl]
    norm_num

/-- Witness for C5: one left-button update from the `Enter` pose strictly
increases the scale, one empty update leaves it unchanged, and a two-tick
sequence never decreases it. -/
theorem C5_scale_monotone_witness :
    (leftHeld.leftButton = true ∧
      GameplayState.Enter.scale <
        (GameplayState.Update leftHeld (1/60) GameplayState.Enter).scale) ∧
    (emptyInput.leftButton = false ∧
      (GameplayState.Update emptyInput (1/60) GameplayState.Enter).scale =
        GameplayState.Enter.scale) ∧
    GameplayState.Enter.scale ≤
      (GameplayState.UpdateSeq [(leftHeld, 1/60), (emptyInput, 1/60)]
        GameplayState.Enter).scale :=
  ⟨⟨rfl, (C5_scale_monotone.1 leftHeld (1/60) GameplayState.Enter).1 rfl⟩,
   ⟨rfl, (C5_scale_monotone.1 emptyInput (1/60) GameplayState.Enter).2 rfl⟩,
   C5_scale_monotone.2 [(leftHeld, 1/60), (emptyInput, 1/60)] GameplayState.Enter⟩

/-- Claim C6: with `Initialize(width = 800, height = 600)` the three vertex
positions built by `BuildTriangleGeometry` sit at offsets (0, -size/2),
(-size/2, +size/2), (+size/2, +size/2) from the center (400, 300), where
`size` is the configured constant 200; in particular the vertex set is
symmetric about the vertical line x = 400 through that center (reflecting
x across 400 permutes the vertices) and the y extent is centered on 300. -/
theorem C6_triangle_symmetry :
    ((BuildTriangleGeometry 800 600).map Vertex.Pos =
      [((400 : ℚ), (300 : ℚ) - triangleSize / 2, (0 : ℚ)),
       (400 - triangleSize / 2, 300 + triangleSize / 2, 0),
       (400 + triangleSize / 2, 300 + triangleSize / 2, 0)]) ∧
    ((BuildTriangleGeometry 800 600).map
        (fun v => (2 * (400 : ℚ) - v.Pos.1, v.Pos.2.1))).Perm
      ((BuildTriangleGeometry 800 600).map (fun v => (v.Pos.1, v.Pos.2.1))) := by
  constructor
  · norm_num [BuildTriangleGeometry, triangleSize]
  · have hmap1 : (BuildTriangleGeometry 800 600).map
        (fun v => (2 * (400 : ℚ) - v.Pos.1, v.Pos.2.1)) =
        [((400 : ℚ), (200 : ℚ)), (500, 400), (300, 400)] := by
      norm_num [BuildTriangleGeometry, triangleSize]
    have hmap2 : (BuildTriangleGeometry 800 600).map
        (fun v => (v.Pos.1, v.Pos.2.1)) =
        [((400 : ℚ), (200 : ℚ)), (300, 400), (500, 400)] := by
      norm_num [BuildTriangleGeometry, triangleSize]
    rw [hmap1, hmap2]
    exact List.Perm.cons _ (List.Perm.swap _ _ _)

/-- Claim C7 counterexample: a single `Cleanup` call on a fully initialized
adapter releases nothing at all: every adapter-owned GPU resource (root
signature, CBV heap, constant buffer, triangle mesh, PSO) is still held
afterwards, so "a single call releases the adapter-owned GPU resources" is
false — the body of `Cleanup` (lines 151-154) is one log statement. -/
theorem C7_single_call_releases_nothing :
    (DX12RenderAdapter.Cleanup adapterAfterInit).1 = adapterAfterInit ∧
    (DX12RenderAdapter.Cleanup adapterAfterInit).1.allReleased = false ∧
    (DX12RenderAdapter.Cleanup adapterAfterInit).1.mPSO = true :=
  ⟨rfl, rfl, rfl⟩

/-- Claim C7 (amended): `Cleanup` is idempotent — calling it twice leaves the
adapter in the same state as calling it once and releases no resource a
second time, because a call releases no resource at all: it only emits the
log line "Cleaning up DX12RenderAdapter" and leaves every adapter-owned GPU
resource untouched (those are freed when the adapter object itself is
destroyed, not by `Cleanup`). -/
theorem C7_cleanup_idempotent (a : DX12AdapterResources) :
    (DX12RenderAdapter.Cleanup (DX12RenderAdapter.Cleanup a).1).1 =
      (DX12RenderAdapter.Cleanup a).1 ∧
    (DX12RenderAdapter.Cleanup a).1 = a ∧
    (DX12RenderAdapter.Cleanup a).2 = ["Cleaning up DX12RenderAdapter"] :=
  ⟨rfl, rfl, rfl⟩

/-- Claim C8: `WinMain` returns exit status 0 on every path — clean run,
`Initialize` failure, and caught `DxException` — and shows the blocking
dialog exactly on the exception path; there is no exit-status distinction
between clean exit and fatal startup error. -/
theorem C8_exit_status_zero (outcome : StartupOutcome) :
    (WinMain outcome).exitCode = 0 ∧
    (WinMain outcome).dialogShown = outcome.isDxException := by
  cases outcome <;> exact ⟨rfl, rfl⟩

/-- Claim C9: the `color` parameter of `DrawTriangle` has no effect — two
calls agreeing on adapter state and transform but differing in color produce
identical constant-buffer contents and identical command streams — and the
triangle's color comes solely from the vertex data baked at initialization,
which is `Colors::Red` for all three vertices at every client size. -/
theorem C9_color_no_effect :
    (∀ (a : AdapterDrawState) (m : Mat4) (c1 c2 : Color4),
      DX12RenderAdapter.DrawTriangle a m c1 = DX12RenderAdapter.DrawTriangle a m c2) ∧
    (∀ (w h : ℤ),
      (BuildTriangleGeometry w h).map Vertex.Color = [colorRed, colorRed, colorRed]) :=
  ⟨fun _ _ _ _ => rfl, fun _ _ => rfl⟩

/-- Claim C10: if the input snapshot reports none of W/A/S/D, none of the
four arrow keys, and neither mouse button held, then `GameplayState::Update`
leaves the whole pose — position, scale and angle — unchanged, for every
`deltaTime`. -/
theorem C10_empty_input_no_drift (input : InputSnapshot) (dt : ℚ)
    (s : GameplayPose)
    (h87 : InputManager.IsKeyDown input 87 = false)
    (h38 : InputManager.IsKeyDown input 38 = false)
    (h83 : InputManager.IsKeyDown input 83 = false)
    (h40 : InputManager.IsKeyDown input 40 = false)
    (h65 : InputManager.IsKeyDown input 65 = false)
    (h37 : InputManager.IsKeyDown input 37 = false)
    (h68 : InputManager.IsKeyDown input 68 = false)
    (h39 : InputManager.IsKeyDown input 39 = false)
    (hl : input.leftButton = false)
    (hr : input.rightButton = false) :
    GameplayState.Update input dt s = s := by
  unfold GameplayState.Update
  simp [h87, h38, h83, h40, h65, h37, h68, h39, hl, hr]

/-- Witness for C10 at the all-empty input snapshot. -/
theorem C10_empty_input_witness :
    emptyInput.leftButton = false ∧
    GameplayState.Update emptyInput (1/60) GameplayState.Enter = GameplayState.Enter :=
  ⟨rfl,
   C10_empty_input_no_drift emptyInput (1/60) GameplayState.Enter
     (by decide) (by decide) (by decide) (by decide)
     (by decide) (by decide) (by decide) (by decide) rfl rfl⟩
